import Mathlib

/-!
Shallow embedding of the docman citation manager (yibotongxue/middleHomeworkLYB)
and verification of its natural-language specification.

The embedding translates the C++ sources: the citation class hierarchy
(citation.h, book.h/book.cpp, webpage.h/webpage.cpp, article.h with its
implementation file), the JSON-driven citation factory and the
marker-resolution / bibliography-printing pipeline of main.cpp.  The external
HTTP metadata service is modelled as an oracle (a function from request path to
an optional status/body pair); machine strings are Lean strings (byte positions
coincide for the ASCII inputs exercised here) and C++ `int` is `Int`.
-/

namespace DocMan

/-- The closed set of concrete citation variants.  Mirrors the class hierarchy
rooted at `Citation` (citation.h): `Book` carries author/title/publisher/year
(book.h), `WebPage` carries title/url (webpage.h), `Article` carries
title/author/journal (strings) and year/volume/issue (`int`, article.h).
The inherited `Citation::id` field is the first argument of each constructor. -/
inductive CitationObj where
  | book (id author title publisher year : String)
  | webpage (id title url : String)
  | article (id title author journal : String) (year volume issue : Int)
deriving DecidableEq

/-- Models `Citation::getId` (citation.h): returns the protected `id` field. -/
def CitationObj.getId : CitationObj → String
  | .book id _ _ _ _ => id
  | .webpage id _ _ => id
  | .article id _ _ _ _ _ _ => id

/-- Models the `print` virtual member of each concrete variant: the exact
character sequence written to the output stream.
`Book::print` (book.cpp) writes `[id] book: author, title, publisher, year`
followed by a newline.  `WebPage::print` (webpage.cpp) writes
`[id] webpage: title. Available at url` followed by a newline.
`Article::print` writes `[id] article: ` and then iterates
`for(auto author : author)` — a range-for over the `std::string` field, so it
writes every single character of `author` followed by `", "` — and then
`title, journal, year, volume, issue` followed by a newline
(`std::endl` writes the newline character). -/
def CitationObj.print : CitationObj → String
  | .book id author title publisher year =>
      "[" ++ id ++ "] book: " ++ author ++ ", " ++ title ++ ", " ++ publisher
        ++ ", " ++ year ++ "\n"
  | .webpage id title url =>
      "[" ++ id ++ "] webpage: " ++ title ++ ". Available at " ++ url ++ "\n"
  | .article id title author journal year volume issue =>
      "[" ++ id ++ "] article: "
        ++ String.join (author.data.map (fun c => Char.toString c ++ ", "))
        ++ title ++ ", " ++ journal ++ ", " ++ toString year ++ ", "
        ++ toString volume ++ ", " ++ toString issue ++ "\n"

/-- The exceptions a `Clone` member can throw on a cross-variant argument:
`Book::Clone` and `WebPage::Clone` throw `std::invalid_argument` with a message
after an explicit `typeid` comparison; `Article::Clone` performs an unguarded
`dynamic_cast<const Article&>`, which throws `std::bad_cast` on mismatch. -/
inductive CloneError where
  | invalidArgument (msg : String)
  | badCast
deriving DecidableEq

/-- Discriminator for `typeid` comparison of two citation objects. -/
def CitationObj.variantTag : CitationObj → Nat
  | .book _ _ _ _ _ => 0
  | .webpage _ _ _ => 1
  | .article _ _ _ _ _ _ _ => 2

/-- Models the virtual `Clone(const Citation&)` members.  The result pair is
(the state of `*this` after the call, the exception thrown if any).
On a same-variant argument the member invokes the implicitly-defined copy
assignment operator, which memberwise-assigns the base `Citation::id` and every
derived field, so `*this` becomes field-equal to the argument and is returned.
On a cross-variant argument `Book::Clone`/`WebPage::Clone` throw
`std::invalid_argument` before any assignment (book.cpp, webpage.cpp) and
`Article::Clone`'s `dynamic_cast` on a reference throws `std::bad_cast`
(article implementation file); in every failing case `*this` is untouched. -/
def CitationObj.Clone (self another : CitationObj) : CitationObj × Option CloneError :=
  match self, another with
  | .book _ _ _ _ _, .book _ _ _ _ _ => (another, none)
  | .book _ _ _ _ _, _ => (self, some (.invalidArgument "Cannot clone from non-Book object"))
  | .webpage _ _ _, .webpage _ _ _ => (another, none)
  | .webpage _ _ _, _ => (self, some (.invalidArgument "Cannot clone from non-WebPage object"))
  | .article _ _ _ _ _ _ _, .article _ _ _ _ _ _ _ => (another, none)
  | .article _ _ _ _ _ _ _, _ => (self, some .badCast)

/-- The exception value thrown by each variant's `Clone` on a type mismatch. -/
def CitationObj.cloneMismatchError : CitationObj → CloneError
  | .book _ _ _ _ _ => .invalidArgument "Cannot clone from non-Book object"
  | .webpage _ _ _ => .invalidArgument "Cannot clone from non-WebPage object"
  | .article _ _ _ _ _ _ _ => .badCast

/-- C6: for every concrete citation variant, `Clone(other)` with `other` of the
same concrete type makes `self` field-equal to `other` (the pair's first
component, the post-state of `self`, is exactly `other`, and it is what the
member returns) and raises no error; with `other` of a different concrete type
it fails with a type-mismatch error (the variant's `std::invalid_argument` or
`std::bad_cast`) and leaves every field of `self` unchanged (the post-state is
exactly `self`). -/
theorem clone_same_type_copies_cross_type_rejected (self other : CitationObj) :
    CitationObj.Clone self other =
      if CitationObj.variantTag self = CitationObj.variantTag other then (other, none)
      else (self, some (CitationObj.cloneMismatchError self)) := by
  cases self <;> cases other <;>
    simp [CitationObj.Clone, CitationObj.variantTag, CitationObj.cloneMismatchError]

/-- C7 (amended): `getId` after a `Clone` returns the clone source's identifier
when the variants match (the memberwise assignment overwrites the base `id`
field) and the original identifier when the clone was rejected.  `render` and
`getId` are const members and never change the object. -/
theorem getId_after_clone (self other : CitationObj) :
    (CitationObj.Clone self other).1.getId =
      if CitationObj.variantTag self = CitationObj.variantTag other then other.getId
      else self.getId := by
  cases self <;> cases other <;>
    simp [CitationObj.Clone, CitationObj.variantTag, CitationObj.getId]

/-- C7 (counterexample): a Book constructed with id `x`, after the operation
`Clone` from a Book with id `z`, reports id `z` — not the identifier it was
constructed with, refuting the claim that the identifier is immutable under
every sequence of the model's operations. -/
theorem clone_overwrites_id_example :
    (CitationObj.Clone (CitationObj.book "x" "a" "t" "p" "2000")
        (CitationObj.book "z" "a" "t" "p" "2000")).1.getId = "z" ∧
      ("z" : String) ≠ "x" := by
  constructor
  · rfl
  · decide

/-- C3: evaluation of `Article::print` at the failing input.  For the Article
constructed as `Article("a1", "T", "ab", "J", 2020, 1, 2)` the code writes
`[a1] article: a, b, T, J, 2020, 1, 2` — the range-for over the `author`
string emits every character of `"ab"` separately followed by `", "` — and not
the line `[a1] article: ab, T, J, 2020, 1, 2` required by the documented
template `[id] article: author, title, journal, year, volume, issue`. -/
theorem article_print_splits_author_chars :
    CitationObj.print (CitationObj.article "a1" "T" "ab" "J" 2020 1 2) =
        "[a1] article: a, b, T, J, 2020, 1, 2\n" ∧
      ("[a1] article: a, b, T, J, 2020, 1, 2\n" : String) ≠
        "[a1] article: ab, T, J, 2020, 1, 2\n" := by
  constructor
  · rfl
  · decide

/-- Generic parsed-JSON tree, as produced by `nlohmann::json` for the
configuration file.  Numbers are modelled as integers (the configuration
fields read with `get<int>` are integers); object fields are an association
list with distinct keys, looked up by first match. -/
inductive Json where
  | null
  | str (s : String)
  | num (n : Int)
  | bool (b : Bool)
  | arr (elems : List Json)
  | obj (fields : List (String × Json))

/-- First-match lookup of a key in a JSON object's field list. -/
def lookupField : List (String × Json) → String → Option Json
  | [], _ => none
  | (k, v) :: rest, key => if k = key then some v else lookupField rest key

/-- Models `j.contains(s)` followed by `j[s]`: the value of field `s` of an
object, `none` on a missing key or a non-object. -/
def Json.find (j : Json) (key : String) : Option Json :=
  match j with
  | .obj fields => lookupField fields key
  | _ => none

/-- Models `check_string(j, s)` (main.cpp): `j.contains(s) && j[s].is_string()`. -/
def check_string (j : Json) (key : String) : Bool :=
  match j.find key with
  | some (.str _) => true
  | _ => false

/-- Models `check_int(j, s)` (main.cpp): `j.contains(s) && j[s].is_number()`. -/
def check_int (j : Json) (key : String) : Bool :=
  match j.find key with
  | some (.num _) => true
  | _ => false

/-- Models `j[s].get<std::string>()`; only evaluated under a successful
`check_string`, where the default branch is unreachable. -/
def getStr (j : Json) (key : String) : String :=
  match j.find key with
  | some (.str s) => s
  | _ => ""

/-- Models `j[s].get<int>()`; only evaluated under a successful `check_int`,
where the default branch is unreachable. -/
def getInt (j : Json) (key : String) : Int :=
  match j.find key with
  | some (.num n) => n
  | _ => 0

/-- Models `isalnum` on the ASCII characters the program feeds to
`encodeUriComponent`. -/
def isalnum (c : Char) : Bool := c.isAlpha || c.isDigit

/-- Models `encodeUriComponent` (utils.hpp): alphanumerics and `-_.~` pass
through, a space becomes `+`, and any other character becomes `%` followed by
the decimal renderings of `(int)c / 16` and `(int)c % 16` (the code calls
`std::to_string`, so the two nibbles are printed in decimal, not hex). -/
def encodeUriComponent (s : String) : String :=
  String.join (s.data.map (fun c =>
    if isalnum c || c = '-' || c = '_' || c = '.' || c = '~' then Char.toString c
    else if c = ' ' then "+"
    else "%" ++ toString (c.toNat / 16) ++ toString (c.toNat % 16)))

/-- The external HTTP service (`httplib::Client client{API_ENDPOINT}`),
modelled as an oracle: for a request path, either a response consisting of a
status code and an already-parsed JSON body, or `none` for a transport
failure (a null `result`).  A body that fails JSON parsing raises an exception
that the callers of the constructors turn into the same fatal exit, so it is
folded into the failure cases. -/
structure Client where
  get : String → Option (Nat × Json)

/-- Models the ISBN constructor `Book::Book(id, isbn)` (book.cpp): issues
`GET /isbn/<encoded isbn>`; on a 200 response whose body has string fields
`author`, `title`, `publisher` and `year` it fills the Book from the response,
otherwise the process exits with status 1. -/
def bookFromIsbn (client : Client) (id isbn : String) : Except Nat CitationObj :=
  match client.get ("/isbn/" ++ encodeUriComponent isbn) with
  | some (status, body) =>
      if status = 200 then
        if check_string body "author" && check_string body "title"
            && check_string body "publisher" && check_string body "year" then
          .ok (.book id (getStr body "author") (getStr body "title")
            (getStr body "publisher") (getStr body "year"))
        else .error 1
      else .error 1
  | none => .error 1

/-- Models the URL constructor `WebPage::WebPage(id, url)` (webpage.cpp):
issues `GET /title/<encoded url>`; on a 200 response whose body has a string
field `title` it fills the WebPage's title from the response — the
configuration never supplies the title directly on this path — otherwise the
process exits with status 1. -/
def webPageFromUrl (client : Client) (id url : String) : Except Nat CitationObj :=
  match client.get ("/title/" ++ encodeUriComponent url) with
  | some (status, body) =>
      if status = 200 then
        if check_string body "title" then
          .ok (.webpage id (getStr body "title") url)
        else .error 1
      else .error 1
  | none => .error 1

/-- The per-node citation construction performed by `createCitationsPointer`
(main.cpp): requires string fields `type` and `id`; dispatches on `type`.
`"book"` requires a string `isbn` and constructs through the external ISBN
lookup (the fully-specified `Book` constructor exists in book.h but is never
called here); `"webpage"` requires a string `url` and constructs through the
external title lookup; `"article"` requires string `title`/`author`/`journal`
and integer `year`/`volume`/`issue` and constructs directly.  `ok none`
corresponds to a `false` return (not a citation node); `error` to the fatal
exits inside the lookup constructors. -/
def buildCitation (client : Client) (j : Json) : Except Nat (Option CitationObj) :=
  if !(check_string j "type" && check_string j "id") then .ok none
  else
    let type := getStr j "type"
    let id := getStr j "id"
    if type = "book" then
      if !check_string j "isbn" then .ok none
      else
        match bookFromIsbn client id (getStr j "isbn") with
        | .error e => .error e
        | .ok b => .ok (some b)
    else if type = "webpage" then
      if !check_string j "url" then .ok none
      else
        match webPageFromUrl client id (getStr j "url") with
        | .error e => .error e
        | .ok w => .ok (some w)
    else if type = "article" then
      if !(check_string j "title" && check_string j "author" && check_string j "journal"
          && check_int j "year" && check_int j "volume" && check_int j "issue") then .ok none
      else .ok (some (.article id (getStr j "title") (getStr j "author") (getStr j "journal")
        (getInt j "year") (getInt j "volume") (getInt j "issue")))
    else .ok none

/-- Models `createCitationsPointer(citations, j)` (main.cpp): on success the
new citation is pushed onto the vector and `true` is returned; on a
non-citation node the vector is untouched and `false` is returned. -/
def createCitationsPointer (client : Client) (citations : List CitationObj) (j : Json) :
    Except Nat (List CitationObj × Bool) :=
  match buildCitation client j with
  | .error e => .error e
  | .ok none => .ok (citations, false)
  | .ok (some c) => .ok (citations ++ [c], true)

mutual

/-- Models `createCitations(citations, j)` (main.cpp): first attempt
`createCitationsPointer`; if it succeeds the node is a leaf and traversal
stops.  Otherwise iterate over `j.items()` — the field values of an object or
the elements of an array; a scalar yields no array/object item and nothing
happens — handling each child value with the dispatch of the loop body. -/
def createCitations (client : Client) (citations : List CitationObj) (j : Json) :
    Except Nat (List CitationObj) :=
  match createCitationsPointer client citations j with
  | .error e => .error e
  | .ok (cs, true) => .ok cs
  | .ok (cs, false) =>
      match j with
      | .obj fields => visitFields client cs fields
      | .arr elems => visitValues client cs elems
      | _ => .ok cs
termination_by (sizeOf j, 0)

/-- The `j.items()` loop of `createCitations` over an object's fields. -/
def visitFields (client : Client) (citations : List CitationObj) :
    List (String × Json) → Except Nat (List CitationObj)
  | [] => .ok citations
  | (_, v) :: rest =>
      match visitItemValue client citations v with
      | .error e => .error e
      | .ok cs => visitFields client cs rest
termination_by l => (sizeOf l, 0)

/-- The `j.items()` loop of `createCitations` over an array's elements. -/
def visitValues (client : Client) (citations : List CitationObj) :
    List Json → Except Nat (List CitationObj)
  | [] => .ok citations
  | v :: rest =>
      match visitItemValue client citations v with
      | .error e => .error e
      | .ok cs => visitValues client cs rest
termination_by l => (sizeOf l, 0)

/-- The body of the `j.items()` loop (main.cpp): if the item's value is an
array, process each of its elements that is an object recursively — an element
that is itself an array is skipped; if the item's value is an object, recurse
into it; any other value is ignored. -/
def visitItemValue (client : Client) (citations : List CitationObj) (v : Json) :
    Except Nat (List CitationObj) :=
  match v with
  | .arr elems => visitArrayElems client citations elems
  | .obj fields => createCitations client citations (.obj fields)
  | _ => .ok citations
termination_by (sizeOf v, 1)

/-- The inner loop over the elements of an array-valued item: recurse into
elements that are objects, skip everything else. -/
def visitArrayElems (client : Client) (citations : List CitationObj) :
    List Json → Except Nat (List CitationObj)
  | [] => .ok citations
  | e :: rest =>
      match e with
      | .obj fields =>
          match createCitations client citations (.obj fields) with
          | .error er => .error er
          | .ok cs => visitArrayElems client cs rest
      | _ => visitArrayElems client citations rest
termination_by l => (sizeOf l, 0)

end

/-- A client oracle whose every request fails; no constructor that consults the
network can succeed against it, so it witnesses code paths that must not
perform a lookup. -/
def clientNone : Client := ⟨fun _ => none⟩

/-- A configuration entry of type `book` whose `author`, `title`, `publisher`
and `year` fields are present as strings but which has no `isbn` field. -/
def bookEntryNoIsbn : Json := .obj [("type", .str "book"), ("id", .str "b1"),
  ("author", .str "A"), ("title", .str "T"), ("publisher", .str "P"),
  ("year", .str "2000")]

/-- C4 (counterexample): on a `book` entry with all of author/title/publisher/
year supplied but no `isbn`, `buildCitation` returns null (`false` from
`createCitationsPointer`, vector untouched) — it does not construct the Book
from the supplied fields, refuting the claim.  The failing client shows no
lookup is attempted either. -/
theorem book_without_isbn_not_constructed :
    buildCitation clientNone bookEntryNoIsbn = .ok none ∧
      createCitationsPointer clientNone [] bookEntryNoIsbn = .ok ([], false) ∧
      Except.ok (some (CitationObj.book "b1" "A" "T" "P" "2000")) ≠
        (Except.ok none : Except Nat (Option CitationObj)) := by
  refine ⟨rfl, rfl, ?_⟩
  intro h
  exact Option.noConfusion (Except.ok.inj h)

/-- C4 (amended): `buildCitation` on an entry whose `type` is `"book"` and
which has no string `isbn` field returns null — the vector is untouched and
`false` is returned — no matter which other fields are present and without
consulting the external service; the fully-specified `Book` constructor is
never invoked by the factory. -/
theorem book_requires_isbn (client : Client) (cs : List CitationObj) (j : Json)
    (htype : getStr j "type" = "book") (hisbn : check_string j "isbn" = false) :
    buildCitation client j = .ok none ∧
      createCitationsPointer client cs j = .ok (cs, false) := by
  have hb : buildCitation client j = .ok none := by
    unfold buildCitation
    by_cases h : (check_string j "type" && check_string j "id") = true
    · simp [h, htype, hisbn]
    · simp [h]
  exact ⟨hb, by simp [createCitationsPointer, hb]⟩

/-- Witness for `book_requires_isbn` at the concrete no-isbn book entry. -/
theorem book_requires_isbn_witness :
    getStr bookEntryNoIsbn "type" = "book" ∧
      check_string bookEntryNoIsbn "isbn" = false ∧
      (buildCitation clientNone bookEntryNoIsbn = .ok none ∧
        createCitationsPointer clientNone [] bookEntryNoIsbn = .ok ([], false)) :=
  ⟨rfl, rfl, book_requires_isbn clientNone [] bookEntryNoIsbn rfl rfl⟩

/-- A valid `article` configuration node (articles are built without any
network access). -/
def artObj : Json := .obj [("type", .str "article"), ("id", .str "a1"),
  ("title", .str "T"), ("author", .str "A"), ("journal", .str "J"),
  ("year", .num 2020), ("volume", .num 1), ("issue", .num 2)]

/-- The citation built from `artObj`. -/
def articleA1 : CitationObj := .article "a1" "T" "A" "J" 2020 1 2

/-- C9 (counterexample): `artObj` is a valid citation node
(`buildCitation` succeeds on it), yet in the configuration
`{"k": [[artObj]]}` — the node sits three levels deep: object field, then an
array directly inside that array — discovery records nothing: the traversal
skips array elements that are themselves arrays, so the citation is missed
despite the claim that nesting depth does not matter. -/
theorem citation_under_double_array_missed :
    buildCitation clientNone artObj = .ok (some articleA1) ∧
      createCitations clientNone []
        (Json.obj [("k", Json.arr [Json.arr [artObj]])]) = .ok [] := by
  constructor
  · rfl
  · simp [createCitations, visitFields, visitValues, visitItemValue, visitArrayElems,
      createCitationsPointer, buildCitation, check_string, check_int, Json.find, lookupField]

/-- One wrapping level around a configuration node: either a one-field object
`{key: node}` or a one-field object holding a one-element array
`{key: [node]}`.  Chains of these wrappers realize object/array nesting of
arbitrary depth in which no array sits directly inside another array. -/
inductive WrapStep where
  | objField (key : String)
  | objArrField (key : String)

/-- Apply a chain of wrapping levels (outermost first) around a node. -/
def wrapConfig : List WrapStep → Json → Json
  | [], j => j
  | .objField k :: ws, j => .obj [(k, wrapConfig ws j)]
  | .objArrField k :: ws, j => .obj [(k, .arr [wrapConfig ws j])]

/-- A one-field object whose value is not a string is never a citation node:
`check_string` on `type` fails (either the key is absent or the value is not a
string), so `buildCitation` returns null. -/
theorem buildCitation_wrapper_none (client : Client) (k : String) (v : Json)
    (hv : ∀ s, v ≠ .str s) :
    buildCitation client (Json.obj [(k, v)]) = .ok none := by
  have hcs : check_string (Json.obj [(k, v)]) "type" = false := by
    unfold check_string Json.find lookupField
    by_cases hk : k = "type"
    · simp only [hk, if_pos rfl]
      cases v with
      | str s => exact absurd rfl (hv s)
      | null => rfl
      | num n => rfl
      | bool b => rfl
      | arr es => rfl
      | obj fs => rfl
    · rw [if_neg hk]
      rfl
  unfold buildCitation
  simp [hcs]

/-- A node on which `buildCitation` succeeds is an object (the `type` field
check only passes on objects). -/
theorem buildCitation_some_isObj (client : Client) (j : Json) (c : CitationObj)
    (h : buildCitation client j = .ok (some c)) : ∃ fields, j = .obj fields := by
  cases j with
  | obj fields => exact ⟨fields, rfl⟩
  | null => simp [buildCitation, check_string, Json.find] at h
  | str s => simp [buildCitation, check_string, Json.find] at h
  | num n => simp [buildCitation, check_string, Json.find] at h
  | bool b => simp [buildCitation, check_string, Json.find] at h
  | arr es => simp [buildCitation, check_string, Json.find] at h

/-- C9 (amended): discovery finds a valid citation node wrapped by any chain of
object fields and object-held one-element arrays — object/array nesting of
arbitrary depth as long as no array sits directly inside another array — and
records exactly that citation, treating the successful node as a leaf and
recording nothing for the generic container wrappers.  (The counterexample
shows the restriction is necessary: an array element that is itself an array
is skipped.) -/
theorem discovery_finds_wrapped_citation (client : Client) (j0 : Json) (c : CitationObj)
    (h : buildCitation client j0 = .ok (some c)) (ws : List WrapStep)
    (acc : List CitationObj) :
    createCitations client acc (wrapConfig ws j0) = .ok (acc ++ [c]) := by
  obtain ⟨f0, hf0⟩ := buildCitation_some_isObj client j0 c h
  induction ws generalizing acc with
  | nil =>
      have hp : createCitationsPointer client acc j0 = .ok (acc ++ [c], true) := by
        simp [createCitationsPointer, h]
      rw [wrapConfig]
      rw [hf0] at hp ⊢
      unfold createCitations
      rw [hp]
  | cons step ws ih =>
      have hobj : ∃ f, wrapConfig ws j0 = Json.obj f := by
        cases ws with
        | nil => exact ⟨f0, hf0⟩
        | cons s rest =>
            cases s with
            | objField k => exact ⟨_, rfl⟩
            | objArrField k => exact ⟨_, rfl⟩
      obtain ⟨f, hf⟩ := hobj
      cases step with
      | objField k =>
          rw [wrapConfig]
          have hw : buildCitation client (Json.obj [(k, wrapConfig ws j0)]) = .ok none := by
            apply buildCitation_wrapper_none
            intro s hs
            rw [hf] at hs
            exact Json.noConfusion hs
          have hp : createCitationsPointer client acc (Json.obj [(k, wrapConfig ws j0)]) =
              .ok (acc, false) := by simp [createCitationsPointer, hw]
          unfold createCitations
          rw [hp]
          unfold visitFields
          have hiv : visitItemValue client acc (wrapConfig ws j0) = .ok (acc ++ [c]) := by
            rw [hf]
            unfold visitItemValue
            rw [← hf]
            exact ih acc
          rw [hiv]
          unfold visitFields
          rfl
      | objArrField k =>
          rw [wrapConfig]
          have hw : buildCitation client
              (Json.obj [(k, Json.arr [wrapConfig ws j0])]) = .ok none := by
            apply buildCitation_wrapper_none
            intro s hs
            exact Json.noConfusion hs
          have hp : createCitationsPointer client acc
              (Json.obj [(k, Json.arr [wrapConfig ws j0])]) = .ok (acc, false) := by
            simp [createCitationsPointer, hw]
          unfold createCitations
          rw [hp]
          unfold visitFields
          have hiv : visitItemValue client acc (Json.arr [wrapConfig ws j0]) =
              .ok (acc ++ [c]) := by
            have hrec : createCitations client acc (wrapConfig ws j0) = .ok (acc ++ [c]) :=
              ih acc
            rw [hf] at hrec
            unfold visitItemValue
            rw [hf]
            simp only [visitArrayElems, hrec]
          rw [hiv]
          unfold visitFields
          rfl

/-- Witness for `discovery_finds_wrapped_citation`: the article node wrapped as
`{"a": {"b": [artObj]}}` — three levels of nesting — is discovered. -/
theorem discovery_finds_wrapped_citation_witness :
    buildCitation clientNone artObj = .ok (some articleA1) ∧
      createCitations clientNone []
        (wrapConfig [.objField "a", .objArrField "b"] artObj) = .ok [articleA1] :=
  ⟨rfl, discovery_finds_wrapped_citation clientNone artObj articleA1 rfl
    [.objField "a", .objArrField "b"] []⟩

/-- Positions of every occurrence of character `c` in the text, in increasing
order: models the `input.find(...)` loops of main.cpp that build the `left`
and `right` bracket-position vectors. -/
def findAll (c : Char) : List Char → Nat → List Nat
  | [], _ => []
  | x :: rest, i =>
      if x = c then i :: findAll c rest (i + 1) else findAll c rest (i + 1)

/-- Models `std::string::substr(pos, count)`: the characters from `pos`, at
most `count` of them (the count is clamped to the end of the string). -/
def substrCpp (cs : List Char) (pos count : Nat) : List Char :=
  (cs.drop pos).take count

/-- Models the `size_type` expression `right[i] - left[i] - 1`: unsigned
subtraction with wraparound at `2 ^ 64`.  When the i-th `]` sits before the
i-th `[` the value is enormous and `substr` simply takes the rest of the
string. -/
def subWrap (r l : Nat) : Nat := (2 ^ 64 + r - (l + 1)) % 2 ^ 64

/-- The id-extraction loop of main.cpp: walk the paired `[` and `]` position
lists in step; before extracting pair `i` the code exits fatally when
`right[i] > left[i+1]` (a `]` would close beyond the next `[`); otherwise the
substring strictly between the paired brackets is appended. -/
def extractPairs (cs : List Char) : List Nat → List Nat → Except Nat (List String)
  | [], _ => .ok []
  | _ :: _, [] => .ok []
  | l :: ls, r :: rs =>
      match ls with
      | l2 :: _ =>
          if r > l2 then .error 1
          else
            match extractPairs cs ls rs with
            | .error e => .error e
            | .ok rest => .ok (String.mk (substrCpp cs (l + 1) (subWrap r l)) :: rest)
      | [] =>
          match extractPairs cs ls rs with
          | .error e => .error e
          | .ok rest => .ok (String.mk (substrCpp cs (l + 1) (subWrap r l)) :: rest)

/-- Lexicographic comparison of character lists by character code: models
`std::string::operator<` (byte-wise lexicographic; identical on the ASCII
identifiers handled here). -/
def listCharLt : List Char → List Char → Bool
  | [], [] => false
  | [], _ :: _ => true
  | _ :: _, [] => false
  | c :: cs, d :: ds =>
      if c.toNat < d.toNat then true
      else if d.toNat < c.toNat then false
      else listCharLt cs ds

/-- The `std::string` less-than used by `std::sort`. -/
def strLt (a b : String) : Bool := listCharLt a.data b.data

/-- Insertion of a string into a sorted list, ordered by the lexicographic
`operator<` of `std::string`. -/
def insertSorted (x : String) : List String → List String
  | [] => [x]
  | y :: ys => if strLt x y then x :: y :: ys else y :: insertSorted x ys

/-- Models `std::sort(ids.begin(), ids.end())`: the sorted rearrangement of
the vector (equal strings are indistinguishable, so every sorting algorithm
produces this same list). -/
def sortStrings (l : List String) : List String := l.foldr insertSorted []

/-- Helper for `dedupAdj`: drop elements equal to the previous kept one. -/
def dedupAdjFrom (prev : String) : List String → List String
  | [] => []
  | y :: rest => if y = prev then dedupAdjFrom prev rest else y :: dedupAdjFrom y rest

/-- The values in the range `[first, result)` left by `std::unique`: the first
element of every run of consecutive equal elements. -/
def dedupAdj : List String → List String
  | [] => []
  | x :: rest => x :: dedupAdjFrom x rest

/-- The `n` trailing slots of the vector after `std::unique`, whose contents
are valid but unspecified; `junk` supplies those unspecified values (padded
with empty strings and truncated so the physical size never changes,
whatever `junk` is given). -/
def unspecifiedTail (junk : List String) (n : Nat) : List String :=
  (junk ++ List.replicate n "").take n

/-- The physical contents of the `ids` vector after main.cpp lines 342-343:
`std::sort` then `std::unique`.  The return value of `std::unique` is
discarded and `erase` is never called, so the vector keeps its original size:
the adjacent-deduplicated values occupy the front and the remaining slots hold
valid but unspecified strings (supplied here by `junk`). -/
def idsAfterSortUnique (ids junk : List String) : List String :=
  dedupAdj (sortStrings ids) ++
    unspecifiedTail junk (ids.length - (dedupAdj (sortStrings ids)).length)

/-- The marker-extraction phase of main (lines 310-343): collect the positions
of every `[` and `]`; exit fatally when either count is zero or the counts
differ; pair the brackets positionally and extract the enclosed substrings;
then sort and (attempt to) deduplicate the vector in place. -/
def extractIds (input : String) (junk : List String) : Except Nat (List String) :=
  if (findAll '[' input.data 0).length = 0 ∨ (findAll ']' input.data 0).length = 0 ∨
      (findAll '[' input.data 0).length ≠ (findAll ']' input.data 0).length then
    .error 1
  else
    match extractPairs input.data (findAll '[' input.data 0) (findAll ']' input.data 0) with
    | .error e => .error e
    | .ok raw => .ok (idsAfterSortUnique raw junk)

/-- The inner catalog scan of main.cpp lines 347-350: every catalog record
whose `getId()` equals the requested id, in catalog order (the loop has no
break, so it does not stop at the first match). -/
def matchesFor (id : String) : List CitationObj → List CitationObj
  | [] => []
  | c :: rest =>
      if c.getId = id then c :: matchesFor id rest else matchesFor id rest

/-- The resolution double loop of main.cpp lines 346-351: for each extracted
id in order, append every matching catalog record to `printedCitations`. -/
def resolveIds (catalog : List CitationObj) : List String → List CitationObj
  | [] => []
  | id :: rest => matchesFor id catalog ++ resolveIds catalog rest

/-- Resolution followed by the count check of main.cpp line 354: exit fatally
when the number of appended records differs from the size of the ids vector,
otherwise hand the resolved list on for printing. -/
def resolveOrFail (catalog : List CitationObj) (ids : List String) :
    Except Nat (List CitationObj) :=
  if ids.length ≠ (resolveIds catalog ids).length then .error 1
  else .ok (resolveIds catalog ids)

/-- Models `printCitations` (main.cpp): the input text verbatim, the separator
and header `\n\nReferences:\n`, then each resolved citation's `print` output
in order. -/
def printCitations (printed : List CitationObj) (input : String) : String :=
  input ++ "\n\nReferences:\n" ++ String.join (printed.map CitationObj.print)

/-- The document-processing phase of main after the catalog is loaded and the
input text read: extraction, resolution with the count check, then rendering.
`error` models the fatal `exit(1)` paths, on which nothing is written (the
output file is opened only after every check has passed). -/
def processDocument (catalog : List CitationObj) (input : String) (junk : List String) :
    Except Nat String :=
  match extractIds input junk with
  | .error e => .error e
  | .ok ids =>
      match resolveOrFail catalog ids with
      | .error e => .error e
      | .ok printed => .ok (printCitations printed input)

/-- A full run: `loadCitations` (parse the configuration — modelled as the
already-parsed tree — exit on a null document, build the catalog with
`createCitations`) followed by `processDocument`. -/
def runDocman (client : Client) (config : Json) (input : String) (junk : List String) :
    Except Nat String :=
  match config with
  | .null => .error 1
  | cfg =>
      match createCitations client [] cfg with
      | .error e => .error e
      | .ok catalog => processDocument catalog input junk

/-- C1: evaluation at the failing input.  The document `[a][a]` references the
marker `a` twice; after `std::sort` the ids vector is `["a", "a"]`, and
because the iterator returned by `std::unique` is discarded (no `erase`), the
vector keeps both slots: the extracted list is `"a"` followed by one
unspecified slot — it has two entries and is never the deduplicated `["a"]`
the specification promises, whatever the unspecified slot holds.  (The code's
own comment, "Remove duplicate IDs and sort them", states the intent the
missing `erase` defeats.) -/
theorem extract_duplicate_marker_not_deduplicated (junk : List String) :
    extractIds "[a][a]" junk = .ok ("a" :: unspecifiedTail junk 1) ∧
      ("a" :: unspecifiedTail junk 1).length = 2 ∧
      ("a" :: unspecifiedTail junk 1) ≠ ["a"] := by
  have hlen : (unspecifiedTail junk 1).length = 1 := by
    simp [unspecifiedTail]
  refine ⟨by rfl, by simp [hlen], ?_⟩
  intro h
  have := congrArg List.length h
  simp [hlen] at this

/-- C8 (counterexample): the document `hello` contains no bracket at all, yet
extraction exits fatally (`left.size() == 0` triggers the fatal branch) —
refuting the claim that a zero-marker document is accepted and the run
completes with an empty reference list. -/
theorem zero_marker_document_rejected :
    findAll '[' "hello".data 0 = [] ∧ findAll ']' "hello".data 0 = [] ∧
      extractIds "hello" [] = .error 1 :=
  ⟨rfl, rfl, rfl⟩

/-- C8 (amended): extraction fails fatally whenever either bracket count is
zero — including a document with no brackets at all — or the two counts
differ; a document is accepted by this check only when both counts are equal
and non-zero. -/
theorem extract_fails_on_zero_bracket_count (input : String) (junk : List String)
    (h : (findAll '[' input.data 0).length = 0 ∨ (findAll ']' input.data 0).length = 0 ∨
      (findAll '[' input.data 0).length ≠ (findAll ']' input.data 0).length) :
    extractIds input junk = .error 1 := by
  unfold extractIds
  rw [if_pos h]

/-- Witness for `extract_fails_on_zero_bracket_count` at the bracketless
document `hello`. -/
theorem extract_fails_on_zero_bracket_count_witness :
    (findAll '[' "hello".data 0).length = 0 ∧ extractIds "hello" [] = .error 1 :=
  ⟨rfl, extract_fails_on_zero_bracket_count "hello" [] (Or.inl rfl)⟩

/-- Two catalog records sharing the id `a`. -/
def bookA1 : CitationObj := .book "a" "A1" "T1" "P1" "2000"

/-- Second catalog record with the same id as `bookA1`. -/
def bookA2 : CitationObj := .book "a" "A2" "T2" "P2" "2001"

/-- C2 (counterexample): resolving the single requested id `a` against a
catalog holding two records with that id appends BOTH records (the scan has no
break), not the claimed single first match; consequently the run on document
`[a]` fails the count check (2 resolved vs 1 requested) instead of
succeeding with a single entry. -/
theorem resolve_duplicate_catalog_appends_two :
    resolveIds [bookA1, bookA2] ["a"] = [bookA1, bookA2] ∧
      (resolveIds [bookA1, bookA2] ["a"]).length ≠ 1 ∧
      processDocument [bookA1, bookA2] "[a]" [] = .error 1 := by
  refine ⟨rfl, ?_, rfl⟩
  decide

/-- C2 (amended): for each requested identifier, in request order, resolution
appends EVERY catalog record whose `getId()` equals it, in catalog order —
not only the first match.  (With a catalog that contains two records with a
requested identifier, two entries are appended and the count check then fails
the run, as the counterexample shows.) -/
theorem resolve_appends_every_match (catalog : List CitationObj) (ids : List String) :
    resolveIds catalog ids =
      ids.flatMap (fun i => catalog.filter (fun c => c.getId = i)) := by
  induction ids with
  | nil => rfl
  | cons i rest ih =>
      have hmf : ∀ cat : List CitationObj,
          matchesFor i cat = cat.filter (fun c => c.getId = i) := by
        intro cat
        induction cat with
        | nil => rfl
        | cons c cs ihc =>
            by_cases hc : c.getId = i <;> simp [matchesFor, List.filter, hc, ihc]
      simp [resolveIds, List.flatMap_cons, ih, hmf]

/-- No element of `l` exceeds one and their sum is the length of `l` exactly
when every element is one. -/
theorem sum_eq_length_iff_all_one (l : List Nat) (h : ∀ x ∈ l, x ≤ 1) :
    l.sum = l.length ↔ ∀ x ∈ l, x = 1 := by
  induction l with
  | nil => simp
  | cons a rest ih =>
      have ha : a ≤ 1 := h a (List.mem_cons_self a rest)
      have hrest : ∀ x ∈ rest, x ≤ 1 := fun x hx => h x (List.mem_cons_of_mem a hx)
      have hsumle : rest.sum ≤ rest.length := by
        calc rest.sum ≤ rest.length * 1 := List.sum_le_card_nsmul rest 1 hrest
        _ = rest.length := by ring
      constructor
      · intro hs
        have h1 : a = 1 ∧ rest.sum = rest.length := by
          simp [List.sum_cons, List.length_cons] at hs
          omega
        intro x hx
        rcases List.mem_cons.mp hx with hxa | hxr
        · rw [hxa]; exact h1.1
        · exact (ih hrest).mp h1.2 x hxr
      · intro hall
        have h1 : a = 1 := hall a (List.mem_cons_self a rest)
        have h2 : rest.sum = rest.length :=
          (ih hrest).mpr (fun x hx => hall x (List.mem_cons_of_mem a hx))
        simp only [List.sum_cons, List.length_cons, h1, h2]
        omega

/-- `matchesFor` returns nothing exactly when no catalog record carries the
requested id. -/
theorem matchesFor_eq_nil_iff (id : String) (catalog : List CitationObj) :
    matchesFor id catalog = [] ↔ ∀ c ∈ catalog, c.getId ≠ id := by
  induction catalog with
  | nil => simp [matchesFor]
  | cons c cs ih =>
      by_cases hc : c.getId = id <;> simp [matchesFor, hc, ih]

/-- Over a catalog whose ids are pairwise distinct, each requested id matches
at most one record. -/
theorem matchesFor_length_le_one (id : String) (catalog : List CitationObj)
    (h : (catalog.map CitationObj.getId).Nodup) :
    (matchesFor id catalog).length ≤ 1 := by
  induction catalog with
  | nil => simp [matchesFor]
  | cons c cs ih =>
      rw [List.map_cons, List.nodup_cons] at h
      by_cases hc : c.getId = id
      · have hnil : matchesFor id cs = [] := by
          rw [matchesFor_eq_nil_iff]
          intro d hd hdid
          exact h.1 (by rw [← hc] at hdid; exact hdid ▸ List.mem_map_of_mem CitationObj.getId hd)
        simp [matchesFor, hc, hnil]
      · simp only [matchesFor, if_neg hc]
        exact ih h.2

/-- The number of resolved records is the sum over the requested ids of the
number of catalog matches of each. -/
theorem resolveIds_length (catalog : List CitationObj) (ids : List String) :
    (resolveIds catalog ids).length =
      (ids.map (fun id => (matchesFor id catalog).length)).sum := by
  induction ids with
  | nil => rfl
  | cons i rest ih => simp [resolveIds, ih]

/-- C5 (amended): over a catalog whose record ids are pairwise distinct, the
count check after resolution succeeds — and a bibliography is emitted — if
and only if every requested identifier has a matching catalog record; when at
least one identifier is unmatched the run fails fatally before anything is
written.  (The distinctness hypothesis is necessary: the counterexample shows
a duplicate-id catalog can make the count check pass although an identifier is
unresolved.) -/
theorem resolution_succeeds_iff_all_matched (catalog : List CitationObj)
    (ids : List String) (h : (catalog.map CitationObj.getId).Nodup) :
    (∃ printed, resolveOrFail catalog ids = .ok printed) ↔
      ∀ id ∈ ids, ∃ c ∈ catalog, c.getId = id := by
  have hok : (∃ printed, resolveOrFail catalog ids = .ok printed) ↔
      ids.length = (resolveIds catalog ids).length := by
    unfold resolveOrFail
    by_cases hlen : ids.length = (resolveIds catalog ids).length
    · simp [hlen]
    · simp [hlen]
  rw [hok, resolveIds_length]
  have hle : ∀ x ∈ ids.map (fun id => (matchesFor id catalog).length), x ≤ 1 := by
    intro x hx
    obtain ⟨id, _, rfl⟩ := List.mem_map.mp hx
    exact matchesFor_length_le_one id catalog h
  have hlen2 : (ids.map (fun id => (matchesFor id catalog).length)).length = ids.length := by
    simp
  constructor
  · intro hs id hid
    have hall := (sum_eq_length_iff_all_one _ hle).mp (by omega)
    have h1 : (matchesFor id catalog).length = 1 :=
      hall _ (List.mem_map_of_mem (fun id => (matchesFor id catalog).length) hid)
    have hne : matchesFor id catalog ≠ [] := by
      intro hnil
      rw [hnil] at h1
      simp at h1
    by_contra hno
    push_neg at hno
    exact hne ((matchesFor_eq_nil_iff id catalog).mpr hno)
  · intro hall
    have h1 : ∀ x ∈ ids.map (fun id => (matchesFor id catalog).length), x = 1 := by
      intro x hx
      obtain ⟨id, hid, rfl⟩ := List.mem_map.mp hx
      obtain ⟨c, hc, hcid⟩ := hall id hid
      have hne : matchesFor id catalog ≠ [] := by
        intro hnil
        exact ((matchesFor_eq_nil_iff id catalog).mp hnil) c hc hcid
      have := matchesFor_length_le_one id catalog h
      have hpos : 0 < (matchesFor id catalog).length := List.length_pos.mpr hne
      omega
    have := (sum_eq_length_iff_all_one _ hle).mpr h1
    omega

/-- Witness for `resolution_succeeds_iff_all_matched` at a one-record catalog
and the single request `a`. -/
theorem resolution_succeeds_iff_all_matched_witness :
    (([bookA1].map CitationObj.getId).Nodup) ∧
      ((∃ printed, resolveOrFail [bookA1] ["a"] = .ok printed) ↔
        ∀ id ∈ ["a"], ∃ c ∈ [bookA1], c.getId = id) :=
  ⟨by simp, resolution_succeeds_iff_all_matched [bookA1] ["a"] (by simp)⟩

/-- C5 (counterexample): the document `[a][b]` references `b`, which no record
of the catalog `[bookA1, bookA2]` carries — yet the run emits a bibliography:
the two records with id `a` make the resolved count equal the requested count
(2 = 2), the count check passes, and output listing `a` twice (and `b` not at
all) is produced, refuting the claim that an unmatched identifier always
aborts the run with no output. -/
theorem unresolved_id_but_output_emitted :
    (¬ ∃ c ∈ [bookA1, bookA2], c.getId = "b") ∧
      processDocument [bookA1, bookA2] "[a][b]" [] =
        .ok ("[a][b]\n\nReferences:\n[a] book: A1, T1, P1, 2000\n[a] book: A2, T2, P2, 2001\n") := by
  constructor
  · decide
  · have h1 : processDocument [bookA1, bookA2] "[a][b]" [] =
        .ok (printCitations [bookA1, bookA2] "[a][b]") := by rfl
    have h2 : printCitations [bookA1, bookA2] "[a][b]" =
        "[a][b]\n\nReferences:\n[a] book: A1, T1, P1, 2000\n[a] book: A2, T2, P2, 2001\n" := by
      decide
    rw [h1, h2]

/-- A client oracle modelling an external title service that answers every
`GET /title/...` request with status 200 and body `{"title": t}`. -/
def clientTitle (t : String) : Client := ⟨fun _ => some (200, .obj [("title", .str t)])⟩

/-- The configuration of end-to-end scenario A:
`[{"type":"webpage","id":"w1","title":"Example","url":"http://example.com"}]`. -/
def configA : Json := .arr [.obj [("type", .str "webpage"), ("id", .str "w1"),
  ("title", .str "Example"), ("url", .str "http://example.com")]]

/-- Evaluation of the full run on scenario A against a title service returning
`t`: the factory calls the URL constructor `WebPage(id, url)`, which takes its
title from the service response — the configuration's own `title` field is
never read — and the renderer emits the text, the separator and header, and
that webpage's line. -/
theorem runDocman_configA_eval (t : String) :
    runDocman (clientTitle t) configA "See [w1] for details." [] =
      .ok (printCitations [CitationObj.webpage "w1" t "http://example.com"]
        "See [w1] for details.") := by
  have hcat : createCitations (clientTitle t) [] configA =
      .ok [CitationObj.webpage "w1" t "http://example.com"] := by
    simp [createCitations, visitValues, visitItemValue, visitFields, visitArrayElems,
      createCitationsPointer, buildCitation, check_string, check_int, Json.find,
      lookupField, getStr, webPageFromUrl, clientTitle, configA]
  unfold runDocman
  simp only [configA] at hcat ⊢
  rw [hcat]
  rfl

/-- C10 (amended): the renderer writes the text verbatim, then the separator
and the header `References:`, then one rendered line per resolved citation —
but on scenario A the webpage's title is NOT the configuration's
`"title":"Example"` field, which the factory ignores: it is whatever the
external title-lookup returns for the url.  The claimed exact output is
produced precisely when the lookup answers `Example`. -/
theorem end_to_end_title_from_lookup (t : String) :
    runDocman (clientTitle t) configA "See [w1] for details." [] =
        .ok ("See [w1] for details." ++ "\n\nReferences:\n" ++
          CitationObj.print (CitationObj.webpage "w1" t "http://example.com")) ∧
      runDocman (clientTitle "Example") configA "See [w1] for details." [] =
        .ok "See [w1] for details.\n\nReferences:\n[w1] webpage: Example. Available at http://example.com\n" := by
  constructor
  · rw [runDocman_configA_eval t]
    rfl
  · rw [runDocman_configA_eval "Example"]
    have h2 : printCitations
        [CitationObj.webpage "w1" "Example" "http://example.com"]
        "See [w1] for details." =
        "See [w1] for details.\n\nReferences:\n[w1] webpage: Example. Available at http://example.com\n" := by
      decide
    rw [h2]

/-- C10 (counterexample): a run of the very same program and inputs against a
title service that answers `Other` succeeds but produces an output different
from the one the claim fixes unconditionally — the configuration's
`"title":"Example"` field is ignored and the rendered title depends on the
external lookup, so the claimed exact output is not a property of the code. -/
theorem end_to_end_output_depends_on_lookup :
    runDocman (clientTitle "Other") configA "See [w1] for details." [] ≠
        .ok "See [w1] for details.\n\nReferences:\n[w1] webpage: Example. Available at http://example.com\n" ∧
      runDocman (clientTitle "Other") configA "See [w1] for details." [] =
        .ok "See [w1] for details.\n\nReferences:\n[w1] webpage: Other. Available at http://example.com\n" := by
  have h2 : printCitations
      [CitationObj.webpage "w1" "Other" "http://example.com"]
      "See [w1] for details." =
      "See [w1] for details.\n\nReferences:\n[w1] webpage: Other. Available at http://example.com\n" := by
    decide
  have hrun := runDocman_configA_eval "Other"
  rw [h2] at hrun
  constructor
  · rw [hrun]
    intro h
    have := Except.ok.inj h
    revert this
    decide
  · exact hrun

end DocMan
